import Mathlib

/-!
Shallow embedding of the scraping engine in `main.py` of the
GoogleScholarProfile repository.

The embedding covers the two scraping functions:

* `scrape_paper_citers` (the live body, lines 32-353): per-row citer
  extraction with a title fallback chain, an exact-match seen-set for
  deduplication, the page loop with a retry counter, next-button handling,
  and the pre-loop CAPTCHA / unusual-traffic checkpoint.
* `scrape_google_scholar_profile` (lines 656-803): per-row publication
  extraction with 1-based `enumerate` ids, optional fields, the
  `isdigit` citation parse, and the bounded wait for the publications table.

Selenium element lookups are modelled as optional snapshots of the
relevant element (`Option` is a lookup that raises
`NoSuchElementException` / any exception caught by a bare `except`).
Python string operations (`split(' - ')`, `strip()`, `lower()`,
`isdigit()`, `int()`, substring `in`, `re.search` of the year pattern)
are re-implemented structurally below so that every definition is
executable by the kernel.  Unicode-only behaviours (non-ASCII digits,
non-ASCII case folding) are modelled over ASCII, which covers every
string the engine actually compares against.
-/

namespace Scholar

/-! ### Python string primitives -/

/-- Python `str.lower()`, ASCII model: map each `A`-`Z` to `a`-`z`. -/
def pyLower (s : String) : String :=
  String.mk (s.toList.map (fun c => if 'A' ≤ c ∧ c ≤ 'Z' then Char.ofNat (c.toNat + 32) else c))

/-- Whitespace stripped by Python `str.strip()` (ASCII model). -/
def pySpace (c : Char) : Bool :=
  c == ' ' || c == '\t' || c == '\n' || c == '\r' || c == Char.ofNat 11 || c == Char.ofNat 12

/-- Python `str.strip()`: drop leading and trailing whitespace. -/
def pyStrip (s : String) : String :=
  String.mk (((s.toList.dropWhile pySpace).reverse.dropWhile pySpace).reverse)

/-- Helper for substring search: does `pat` occur at the head of `l`? -/
def chPre : List Char → List Char → Bool
  | [], _ => true
  | _ :: _, [] => false
  | a :: as, b :: bs => a == b && chPre as bs

/-- Helper for substring search: does `pat` occur anywhere in `l`? -/
def chSub (pat : List Char) : List Char → Bool
  | [] => pat.isEmpty
  | c :: rest => chPre pat (c :: rest) || chSub pat rest

/-- Python `pat in hay` on strings (substring containment). -/
def strContains (hay pat : String) : Bool :=
  chSub pat.toList hay.toList

/-- Python `str.isdigit()`, ASCII model: non-empty and all decimal digits. -/
def pyIsDigit (s : String) : Bool :=
  !s.toList.isEmpty && s.toList.all Char.isDigit

/-- Python `int()` on an all-digit string: usual left-to-right decimal read. -/
def pyInt (s : String) : Nat :=
  s.toList.foldl (fun n c => 10 * n + (c.toNat - 48)) 0

/-- Python `str.split(' - ')` (the literal separator used at
`info_elem.text.split(' - ')`): scan left to right, split at every
non-overlapping occurrence of the three characters space, dash, space. -/
def splitDashGo : List Char → List Char → List String
  | acc, ' ' :: '-' :: ' ' :: rem => String.mk acc.reverse :: splitDashGo [] rem
  | acc, c :: rest => splitDashGo (c :: acc) rest
  | acc, [] => [String.mk acc.reverse]

/-- Python `line.split(' - ')` packaged on `String`. -/
def pySplitInfo (s : String) : List String :=
  splitDashGo [] s.toList

/-- Word character for the regex `\b` boundary (ASCII model of `\w`). -/
def isWordChar (c : Char) : Bool :=
  c.isAlphanum || c == '_'

/-- Attempt to match the regex `\b(19|20)\d{2}\b` at the current position;
`pre` is the character just before the position (`none` at the start). -/
def yearAt (pre : Option Char) : List Char → Option String
  | c1 :: c2 :: c3 :: c4 :: rest =>
      if ((match pre with | none => true | some p => !isWordChar p)
          && ((c1 == '1' && c2 == '9') || (c1 == '2' && c2 == '0'))
          && c3.isDigit && c4.isDigit
          && (match rest with | [] => true | r :: _ => !isWordChar r))
      then some (String.mk [c1, c2, c3, c4]) else none
  | _ => none

/-- Scan positions left to right, as `re.search` does, returning the first
match of `\b(19|20)\d{2}\b` (its `group(0)`). -/
def yearSearchAux (pre : Option Char) : List Char → Option String
  | [] => none
  | c :: rest =>
      match yearAt pre (c :: rest) with
      | some y => some y
      | none => yearSearchAux (some c) rest

/-- Python `re.search(r'\b(19|20)\d{2}\b', s)` followed by `.group(0)`. -/
def yearSearch (s : String) : Option String :=
  yearSearchAux none s.toList

/-! ### Data model -/

/-- Snapshot of a located page element: its rendered `.text` and the value
of `get_attribute('href')` (which Selenium may return as `None`). -/
structure ScholarElem where
  text : String
  href : Option String
  deriving DecidableEq

/-- One result row of the cited-by page, as the extraction loop of
`scrape_paper_citers` can observe it.  Each field is the outcome of the
corresponding locator: `gsRt` is `row.find_element(By.CLASS_NAME, "gs_rt")`,
`h3a` is `row.find_element(By.CSS_SELECTOR, "h3 a")`, `gsRtAnchor` /
`h3aAnchor` are the nested `find_element(By.TAG_NAME, "a")` under the
respective title element, and `gsA` is the text of the `gs_a` info line. -/
structure CiterRow where
  gsRt : Option ScholarElem
  h3a : Option ScholarElem
  gsRtAnchor : Option ScholarElem
  h3aAnchor : Option ScholarElem
  gsA : Option String
  deriving DecidableEq

/-- The dictionary `citer_data` appended to `citers` (lines 222-276). -/
structure CiterRecord where
  citer_title : String
  citer_link : Option String
  citer_authors : Option String
  citer_publication : Option String
  citer_year : Option String
  deriving DecidableEq

/-- The `' - '`-split of the gray info line (lines 262-270): authors from
segment 0, publication from segment 1, year scanned from segment 2 when a
third segment exists. -/
def parseInfo (line : String) : Option String × Option String × Option String :=
  let parts := pySplitInfo line
  (parts.get? 0, parts.get? 1,
    if 2 < parts.length then (parts.get? 2).bind yearSearch else none)

/-- The title fallback chain of lines 228-236: first `gs_rt`, then `h3 a`;
returns the chosen title element together with its nested-anchor lookup. -/
def titleElemOf (row : CiterRow) : Option (ScholarElem × Option ScholarElem) :=
  match row.gsRt with
  | some e => some (e, row.gsRtAnchor)
  | none =>
      match row.h3a with
      | some e => some (e, row.h3aAnchor)
      | none => none

/-- Extraction of one citer row (lines 221-276).  Returns `none` when the
row is skipped: both title locators fail, the title text is empty, or the
title is already in the seen-set (`if not title or title in seen_titles`).
Otherwise it builds the full record: the link prefers the anchor nested
under the title element and falls back to the title element's own `href`;
the authors / publication / year come from `parseInfo` when the `gs_a`
element exists and are all `None` otherwise. -/
def extractCiter (seen : List String) (row : CiterRow) : Option CiterRecord :=
  match titleElemOf row with
  | none => none
  | some (e, anch) =>
      if e.text = "" ∨ e.text ∈ seen then none
      else
        some
          { citer_title := e.text
            citer_link := match anch with
              | some a => a.href
              | none => e.href
            citer_authors := match row.gsA with
              | none => none
              | some s => (parseInfo s).1
            citer_publication := match row.gsA with
              | none => none
              | some s => (parseInfo s).2.1
            citer_year := match row.gsA with
              | none => none
              | some s => (parseInfo s).2.2 }

/-- The `for row in paper_rows` loop of one page: thread the seen-set and
append each emitted record (`seen_titles.add(title)`; `citers.append`). -/
def extractRowsLoop (seen : List String) (acc : List CiterRecord) :
    List CiterRow → List String × List CiterRecord
  | [] => (seen, acc)
  | row :: rest =>
      match extractCiter seen row with
      | none => extractRowsLoop seen acc rest
      | some rec => extractRowsLoop (rec.citer_title :: seen) (acc ++ [rec]) rest

/-! ### The citation-crawl page loop -/

/-- Outcome of the next-button block (lines 282-325): no button found by any
of the three locators, button disabled, click succeeded, or an exception
while scrolling / clicking (caught by `except ...: break`). -/
inductive NextStatus
  | notFound
  | disabled
  | ok
  | nextError
  deriving DecidableEq

/-- What one iteration of the `while True` loop observes of the driver:
either the page-level scrape raises (the outer `except Exception` of lines
327-334, the transient per-page error), or it yields the current rows
together with the state of the next button. -/
inductive Attempt
  | pageError
  | page (rows : List CiterRow) (next : NextStatus)
  deriving DecidableEq

/-- Observable events of the loop: a scrape pass over the current page, the
fixed `time.sleep(2)` backoff before a retry, and a successful advance to
the next page. -/
inductive CEvent
  | attempt (page : Nat)
  | backoff
  | advance (toPage : Nat)
  deriving DecidableEq

/-- Loop state: `page_num`, `retry_count`, `seen_titles`, `citers`, plus the
trace of observable events. -/
structure CiterCrawlState where
  pageNum : Nat
  retryCount : Nat
  seen : List String
  citers : List CiterRecord
  trace : List CEvent
  deriving DecidableEq

/-- `max_retries = 3` (line 193). -/
def maxRetries : Nat := 3

/-- The `while True` loop of lines 196-334, consuming one `Attempt` per
iteration.  On a page error: `retry_count += 1`, abort when it reaches
`max_retries`, otherwise `time.sleep(2)` and retry the same page.  On a
scraped page: stop if no rows; otherwise run the row loop, then either
advance (`page_num += 1; retry_count = 0`) or stop according to the next
button.  The loop also stops when the script of observations runs out. -/
def citersLoop : List Attempt → CiterCrawlState → CiterCrawlState
  | [], st => st
  | Attempt.pageError :: rest, st =>
      if maxRetries ≤ st.retryCount + 1 then
        { st with retryCount := st.retryCount + 1,
                  trace := st.trace ++ [CEvent.attempt st.pageNum] }
      else
        citersLoop rest
          { st with retryCount := st.retryCount + 1,
                    trace := st.trace ++ [CEvent.attempt st.pageNum, CEvent.backoff] }
  | Attempt.page rows next :: rest, st =>
      if rows.isEmpty then
        { st with trace := st.trace ++ [CEvent.attempt st.pageNum] }
      else
        match next with
        | NextStatus.ok =>
            citersLoop rest
              { pageNum := st.pageNum + 1
                retryCount := 0
                seen := (extractRowsLoop st.seen st.citers rows).1
                citers := (extractRowsLoop st.seen st.citers rows).2
                trace := st.trace ++ [CEvent.attempt st.pageNum, CEvent.advance (st.pageNum + 1)] }
        | _ =>
            { st with seen := (extractRowsLoop st.seen st.citers rows).1,
                      citers := (extractRowsLoop st.seen st.citers rows).2,
                      trace := st.trace ++ [CEvent.attempt st.pageNum] }

/-- Initial loop state (lines 188-194): page 1, zero retries, empty
seen-set, no citers. -/
def citersInit : CiterCrawlState :=
  { pageNum := 1, retryCount := 0, seen := [], citers := [], trace := [] }

/-- The value `scrape_paper_citers` hands back to its caller.  The early
exits return the empty list: no cited-by link found (line 115) and no
results found even after the manual checkpoint (line 186).  In every other
case the function runs the page loop and returns `citers` (line 353) —
including when the loop stopped because of errors or exhausted retries. -/
def scrape_paper_citers (citedByFound resultsFound : Bool) (script : List Attempt) :
    List CiterRecord :=
  if citedByFound then
    if resultsFound then (citersLoop script citersInit).citers
    else []
  else []

/-! ### Specification-side deduplication reference -/

/-- Modelled from the spec: first-occurrence-wins deduplication against a
seen-set, as §3 of the spec describes it.  Used as the reference the loop
output is compared against; not part of the source. -/
def dedupFirstAux (seen : List String) : List CiterRecord → List String × List CiterRecord
  | [] => (seen, [])
  | r :: rs =>
      if r.citer_title ∈ seen then dedupFirstAux seen rs
      else
        ((dedupFirstAux (r.citer_title :: seen) rs).1,
         r :: (dedupFirstAux (r.citer_title :: seen) rs).2)

/-- The rows the loop actually runs extraction over, in document order:
the concatenation of the rows of every successfully scraped page, cut off
by the same stopping conditions as `citersLoop` (which depend only on the
attempt outcomes and the retry counter). -/
def processedRows : Nat → List Attempt → List CiterRow
  | _, [] => []
  | rc, Attempt.pageError :: rest =>
      if maxRetries ≤ rc + 1 then [] else processedRows (rc + 1) rest
  | _, Attempt.page rows next :: rest =>
      if rows.isEmpty then []
      else rows ++ (match next with
        | NextStatus.ok => processedRows 0 rest
        | _ => [])

/-! ### Anti-bot gate -/

/-- Gate classification of §4.2. -/
inductive GateState
  | Clear
  | SoftBlock
  | HardBlock
  deriving DecidableEq

/-- The checkpoint test of lines 131-144: lowercase the page source, then
`'captcha' in page_source` (hard block), `elif 'unusual traffic' in
page_source` (soft block), else clear. -/
def gateCheck (pageSource : String) : GateState :=
  if strContains (pyLower pageSource) "captcha" then GateState.HardBlock
  else if strContains (pyLower pageSource) "unusual traffic" then GateState.SoftBlock
  else GateState.Clear

/-- Observable actions of the straight-line checkpoint code. -/
inductive GAction
  | checkGate
  | notify
  | awaitResume
  | detectResults
  deriving DecidableEq

/-- The sequence of actions lines 131-151 perform after navigating to the
results page: one gate check; when blocked, a printed notification and a
blocking `input()` (the manual-resume checkpoint) — after which control
falls through directly to result detection, with no second gate check. -/
def citersBlockPhase (pageSource : String) : List GAction :=
  match gateCheck pageSource with
  | GateState.Clear => [GAction.checkGate, GAction.detectResults]
  | _ => [GAction.checkGate, GAction.notify, GAction.awaitResume, GAction.detectResults]

/-! ### The profile crawler -/

/-- One row (`gsc_a_tr`) of the fully expanded publications table, as
`scrape_google_scholar_profile` can observe it: the optional title element
(`gsc_a_at`), the texts of the `gs_gray` elements, the optional year
(`gsc_a_y`) and citation (`gsc_a_c`) element texts, and whether some field
access raises an exception not caught by the per-field handlers (the outer
`except Exception` of lines 789-791, e.g. a stale element). -/
structure ProfileRow where
  gsc_a_at : Option ScholarElem
  gs_gray : List String
  gsc_a_y : Option String
  gsc_a_c : Option String
  raises : Bool
  deriving DecidableEq

/-- The dictionary `paper_data` appended to `all_papers` (lines 735-784). -/
structure PaperRecord where
  paper_id : Nat
  title : Option String
  link : Option String
  authors : Option String
  publication : Option String
  year : Option String
  citations : Int
  deriving DecidableEq

/-- The citation parse of lines 772-781: strip the text; accept it with
`int()` only when non-empty and `isdigit()`; otherwise, or when the
element is missing, the count is `0`. -/
def citationsOf (t : Option String) : Int :=
  match t with
  | none => 0
  | some txt =>
      if !(pyStrip txt).toList.isEmpty && pyIsDigit (pyStrip txt) then
        Int.ofNat (pyInt (pyStrip txt))
      else 0

/-- Extraction of one publication row at `enumerate` index `idx`
(lines 734-784).  A row whose extraction raises contributes no record;
otherwise every field degrades to `None` / `0` on a missing element:
title and link from `gsc_a_at`, authors from the first `gs_gray` element,
publication from the second, year from the stripped `gsc_a_y` text
(empty becomes `None`), citations via `citationsOf`. -/
def extractPaper (idx : Nat) (row : ProfileRow) : Option PaperRecord :=
  if row.raises then none
  else
    some
      { paper_id := idx
        title := row.gsc_a_at.map (fun e => e.text)
        link := row.gsc_a_at.bind (fun e => e.href)
        authors := row.gs_gray.get? 0
        publication := if 1 < row.gs_gray.length then row.gs_gray.get? 1 else none
        year := match row.gsc_a_y with
          | none => none
          | some t => if (pyStrip t).toList.isEmpty then none else some (pyStrip t)
        citations := citationsOf row.gsc_a_c }

/-- Python `enumerate(paper_rows, 1)`. -/
def enumFrom : Nat → List ProfileRow → List (Nat × ProfileRow)
  | _, [] => []
  | n, r :: rs => (n, r) :: enumFrom (n + 1) rs

/-- The record sequence `scrape_google_scholar_profile` produces.  When the
`gsc_a_b` container does not appear within the bounded 10-second wait the
function returns an empty DataFrame (line 729); otherwise it extracts
every row of the expanded table in document order with 1-based
`enumerate` ids, dropping rows whose extraction raises. -/
def scrape_google_scholar_profile (tableFound : Bool) (rows : List ProfileRow) :
    List PaperRecord :=
  if tableFound then (enumFrom 1 rows).filterMap (fun p => extractPaper p.1 p.2)
  else []

/-! ### Sample inputs used by concrete witnesses and counterexamples -/

/-- A citer row whose title comes from the primary `gs_rt` locator. -/
def crow1 : CiterRow :=
  { gsRt := some { text := "Paper One", href := some "http://one" }
    h3a := none, gsRtAnchor := none, h3aAnchor := none, gsA := none }

/-- A citer row carrying the two-segment synthetic info line of §8. -/
def crowInfo2 : CiterRow :=
  { gsRt := some { text := "T1", href := none }
    h3a := none, gsRtAnchor := none, h3aAnchor := none
    gsA := some "A. Author - Venue, 2019" }

/-- A citer row carrying the three-segment synthetic info line of §8. -/
def crowInfo3 : CiterRow :=
  { gsRt := some { text := "T2", href := none }
    h3a := none, gsRtAnchor := none, h3aAnchor := none
    gsA := some "A. Author - Venue - 2019" }

/-- A profile row every locator of which fails, extraction succeeding. -/
def pOk : ProfileRow :=
  { gsc_a_at := none, gs_gray := [], gsc_a_y := none, gsc_a_c := none, raises := false }

/-- A profile row whose extraction raises (outer `except Exception`). -/
def pBad : ProfileRow :=
  { gsc_a_at := none, gs_gray := [], gsc_a_y := none, gsc_a_c := none, raises := true }

/-- The record `extractCiter` builds from `crow1`. -/
def crec1 : CiterRecord :=
  { citer_title := "Paper One", citer_link := some "http://one"
    citer_authors := none, citer_publication := none, citer_year := none }

/-- A second distinct citer row. -/
def crow2 : CiterRow :=
  { gsRt := some { text := "Paper Two", href := none }
    h3a := none, gsRtAnchor := none, h3aAnchor := none, gsA := none }

/-- The record `extractCiter` builds from `crow2`. -/
def crec2 : CiterRecord :=
  { citer_title := "Paper Two", citer_link := none
    citer_authors := none, citer_publication := none, citer_year := none }

/-- A citer row both of whose title locators fail. -/
def crowEmpty : CiterRow :=
  { gsRt := none, h3a := none, gsRtAnchor := none, h3aAnchor := none, gsA := none }

/-- A citer row whose title only the secondary `h3 a` locator finds. -/
def crowH3 : CiterRow :=
  { gsRt := none, h3a := some { text := "H3 Title", href := none }
    gsRtAnchor := none, h3aAnchor := none, gsA := none }

/-- The record `extractCiter` builds from `crowInfo2`. -/
def crecT1 : CiterRecord :=
  { citer_title := "T1", citer_link := none, citer_authors := some "A. Author"
    citer_publication := some "Venue, 2019", citer_year := none }

/-- A profile row whose citation cell reads `" 123 "`. -/
def cRowDigits : ProfileRow :=
  { gsc_a_at := none, gs_gray := [], gsc_a_y := none, gsc_a_c := some " 123 ", raises := false }

/-- The record `extractPaper` builds from `cRowDigits` at index 1. -/
def cRecDigits : PaperRecord :=
  { paper_id := 1, title := none, link := none, authors := none
    publication := none, year := none, citations := 123 }

/-- A loop state on page 2 with two failed attempts already recorded. -/
def st2 : CiterCrawlState :=
  { pageNum := 2, retryCount := 2, seen := ["Paper One"], citers := [crec1], trace := [] }

/-! ### Helper lemmas -/

theorem extractCiter_title_ne (seen : List String) (row : CiterRow) (rec : CiterRecord)
    (h : extractCiter seen row = some rec) : rec.citer_title ≠ "" := by
  unfold extractCiter at h
  cases ht : titleElemOf row with
  | none => rw [ht] at h; exact absurd h (by simp)
  | some p =>
    obtain ⟨e, anch⟩ := p
    rw [ht] at h
    by_cases he : e.text = "" ∨ e.text ∈ seen
    · simp [he] at h
    · dsimp only at h
      rw [if_neg he] at h
      injection h with h'
      subst h'
      push_neg at he
      exact he.1

theorem extractCiter_seen_eq (seen : List String) (row : CiterRow) :
    extractCiter seen row =
      (extractCiter [] row).bind
        (fun rec => if rec.citer_title ∈ seen then none else some rec) := by
  unfold extractCiter
  cases ht : titleElemOf row with
  | none => rfl
  | some p =>
    obtain ⟨e, anch⟩ := p
    by_cases he : e.text = ""
    · simp [he]
    · simp [he]

theorem extractRowsLoop_eq (rows : List CiterRow) :
    ∀ (seen : List String) (acc : List CiterRecord),
      extractRowsLoop seen acc rows =
        ((dedupFirstAux seen (rows.filterMap (extractCiter []))).1,
         acc ++ (dedupFirstAux seen (rows.filterMap (extractCiter []))).2) := by
  induction rows with
  | nil => intro seen acc; simp [extractRowsLoop, dedupFirstAux]
  | cons row rest ih =>
    intro seen acc
    cases hb : extractCiter [] row with
    | none =>
      have hs : extractCiter seen row = none := by
        rw [extractCiter_seen_eq, hb]; rfl
      simp [extractRowsLoop, hs, List.filterMap_cons, hb, ih]
    | some rec =>
      have hs : extractCiter seen row = if rec.citer_title ∈ seen then none else some rec := by
        rw [extractCiter_seen_eq, hb]; rfl
      by_cases hm : rec.citer_title ∈ seen
      · simp [extractRowsLoop, hs, hm, List.filterMap_cons, hb, dedupFirstAux, ih]
      · simp [extractRowsLoop, hs, hm, List.filterMap_cons, hb, dedupFirstAux, ih]

theorem dedupFirstAux_append (xs ys : List CiterRecord) :
    ∀ seen, dedupFirstAux seen (xs ++ ys) =
      ((dedupFirstAux (dedupFirstAux seen xs).1 ys).1,
       (dedupFirstAux seen xs).2 ++ (dedupFirstAux (dedupFirstAux seen xs).1 ys).2) := by
  induction xs with
  | nil => intro seen; simp [dedupFirstAux]
  | cons x xs ih =>
    intro seen
    by_cases h : x.citer_title ∈ seen <;> simp [dedupFirstAux, h, ih]

theorem dedupFirstAux_mem (l : List CiterRecord) :
    ∀ seen r, r ∈ (dedupFirstAux seen l).2 → r ∈ l := by
  induction l with
  | nil => intro seen r h; simp [dedupFirstAux] at h
  | cons x xs ih =>
    intro seen r h
    by_cases hx : x.citer_title ∈ seen
    · simp [dedupFirstAux, hx] at h
      exact List.mem_cons_of_mem x (ih seen r h)
    · simp [dedupFirstAux, hx] at h
      rcases h with h | h
      · exact h ▸ List.mem_cons_self x xs
      · exact List.mem_cons_of_mem x (ih _ r h)

theorem dedupFirstAux_nodup (l : List CiterRecord) :
    ∀ seen,
      ((dedupFirstAux seen l).2.map (fun r => r.citer_title)).Nodup ∧
      ∀ r ∈ (dedupFirstAux seen l).2, r.citer_title ∉ seen := by
  induction l with
  | nil => intro seen; simp [dedupFirstAux]
  | cons x xs ih =>
    intro seen
    by_cases hx : x.citer_title ∈ seen
    · have := ih seen
      simp [dedupFirstAux, hx]
      exact this
    · have hrec := ih (x.citer_title :: seen)
      constructor
      · simp only [dedupFirstAux, if_neg hx, List.map_cons, List.nodup_cons]
        constructor
        · intro hmem
          rcases List.mem_map.mp hmem with ⟨r, hr, hteq⟩
          have := hrec.2 r hr
          exact this (hteq ▸ List.mem_cons_self _ _)
        · exact hrec.1
      · intro r hr
        simp only [dedupFirstAux, if_neg hx, List.mem_cons] at hr
        rcases hr with rfl | hr
        · exact hx
        · intro hseen
          exact hrec.2 r hr (List.mem_cons_of_mem _ hseen)

theorem citersLoop_error_retry (st : CiterCrawlState) (rest : List Attempt)
    (h : st.retryCount + 1 < maxRetries) :
    citersLoop (Attempt.pageError :: rest) st =
      citersLoop rest
        { st with retryCount := st.retryCount + 1,
                  trace := st.trace ++ [CEvent.attempt st.pageNum, CEvent.backoff] } := by
  have hn : ¬ maxRetries ≤ st.retryCount + 1 := by omega
  simp [citersLoop, hn]

theorem citersLoop_error_stop (st : CiterCrawlState) (rest : List Attempt)
    (h : maxRetries ≤ st.retryCount + 1) :
    citersLoop (Attempt.pageError :: rest) st =
      { st with retryCount := st.retryCount + 1,
                trace := st.trace ++ [CEvent.attempt st.pageNum] } := by
  simp [citersLoop, h]

theorem citersLoop_page_empty (st : CiterCrawlState) (rest : List Attempt)
    (rows : List CiterRow) (next : NextStatus) (h : rows.isEmpty = true) :
    citersLoop (Attempt.page rows next :: rest) st =
      { st with trace := st.trace ++ [CEvent.attempt st.pageNum] } := by
  simp [citersLoop, h]

theorem citersLoop_page_ok (st : CiterCrawlState) (rest : List Attempt)
    (rows : List CiterRow) (h : rows.isEmpty = false) :
    citersLoop (Attempt.page rows NextStatus.ok :: rest) st =
      citersLoop rest
        { pageNum := st.pageNum + 1
          retryCount := 0
          seen := (extractRowsLoop st.seen st.citers rows).1
          citers := (extractRowsLoop st.seen st.citers rows).2
          trace := st.trace ++ [CEvent.attempt st.pageNum, CEvent.advance (st.pageNum + 1)] } := by
  simp [citersLoop, h]

theorem citersLoop_page_stop (st : CiterCrawlState) (rest : List Attempt)
    (rows : List CiterRow) (next : NextStatus) (h : rows.isEmpty = false)
    (hn : next ≠ NextStatus.ok) :
    citersLoop (Attempt.page rows next :: rest) st =
      { st with seen := (extractRowsLoop st.seen st.citers rows).1,
                citers := (extractRowsLoop st.seen st.citers rows).2,
                trace := st.trace ++ [CEvent.attempt st.pageNum] } := by
  cases next with
  | ok => exact absurd rfl hn
  | notFound => simp [citersLoop, h]
  | disabled => simp [citersLoop, h]
  | nextError => simp [citersLoop, h]

theorem citersLoop_eq (script : List Attempt) :
    ∀ st : CiterCrawlState,
      (citersLoop script st).seen =
        (dedupFirstAux st.seen
          ((processedRows st.retryCount script).filterMap (extractCiter []))).1 ∧
      (citersLoop script st).citers =
        st.citers ++ (dedupFirstAux st.seen
          ((processedRows st.retryCount script).filterMap (extractCiter []))).2 := by
  induction script with
  | nil => intro st; simp [citersLoop, processedRows, dedupFirstAux]
  | cons att rest ih =>
    intro st
    cases att with
    | pageError =>
      by_cases h : maxRetries ≤ st.retryCount + 1
      · rw [citersLoop_error_stop st rest h]
        simp [processedRows, h, dedupFirstAux]
      · rw [citersLoop_error_retry st rest (by omega)]
        have := ih { st with retryCount := st.retryCount + 1,
                             trace := st.trace ++ [CEvent.attempt st.pageNum, CEvent.backoff] }
        simpa [processedRows, h] using this
    | page rows next =>
      cases hrows : rows.isEmpty with
      | true =>
        rw [citersLoop_page_empty st rest rows next hrows]
        simp [processedRows, hrows, dedupFirstAux]
      | false =>
        have hrl := extractRowsLoop_eq rows st.seen st.citers
        cases next with
        | ok =>
          rw [citersLoop_page_ok st rest rows hrows]
          have hrec := ih
            { pageNum := st.pageNum + 1
              retryCount := 0
              seen := (extractRowsLoop st.seen st.citers rows).1
              citers := (extractRowsLoop st.seen st.citers rows).2
              trace := st.trace ++ [CEvent.attempt st.pageNum, CEvent.advance (st.pageNum + 1)] }
        -- fold the recursive description into the page-then-rest decomposition
          rw [hrec.1, hrec.2]
          simp only [hrl, processedRows, hrows, Bool.false_eq_true, if_false,
            List.filterMap_append, dedupFirstAux_append]
          exact ⟨trivial, by simp [List.append_assoc]⟩
        | notFound =>
          rw [citersLoop_page_stop st rest rows NextStatus.notFound hrows (by simp)]
          simp [processedRows, hrows, hrl]
        | disabled =>
          rw [citersLoop_page_stop st rest rows NextStatus.disabled hrows (by simp)]
          simp [processedRows, hrows, hrl]
        | nextError =>
          rw [citersLoop_page_stop st rest rows NextStatus.nextError hrows (by simp)]
          simp [processedRows, hrows, hrl]

theorem extractCiter_fields (seen : List String) (row : CiterRow) (rec : CiterRecord)
    (h : extractCiter seen row = some rec) :
    ∃ e anch, titleElemOf row = some (e, anch) ∧ rec.citer_title = e.text ∧
      rec.citer_link = (match anch with | some a => a.href | none => e.href) ∧
      rec.citer_authors =
        (match row.gsA with | none => none | some s => (parseInfo s).1) ∧
      rec.citer_publication =
        (match row.gsA with | none => none | some s => (parseInfo s).2.1) ∧
      rec.citer_year =
        (match row.gsA with | none => none | some s => (parseInfo s).2.2) := by
  unfold extractCiter at h
  cases ht : titleElemOf row with
  | none => rw [ht] at h; exact absurd h (by simp)
  | some p =>
    obtain ⟨e, anch⟩ := p
    rw [ht] at h
    dsimp only at h
    by_cases he : e.text = "" ∨ e.text ∈ seen
    · rw [if_pos he] at h; exact absurd h (by simp)
    · rw [if_neg he] at h
      injection h with h'
      exact ⟨e, anch, rfl, by rw [← h'], by rw [← h'], by rw [← h'], by rw [← h'],
        by rw [← h']⟩

theorem extractPaper_raises (i : Nat) (row : ProfileRow) (h : row.raises = true) :
    extractPaper i row = none := by
  simp [extractPaper, h]

theorem extractPaper_eq (i : Nat) (row : ProfileRow) (h : row.raises = false) :
    extractPaper i row =
      some
        { paper_id := i
          title := row.gsc_a_at.map (fun e => e.text)
          link := row.gsc_a_at.bind (fun e => e.href)
          authors := row.gs_gray.get? 0
          publication := if 1 < row.gs_gray.length then row.gs_gray.get? 1 else none
          year := match row.gsc_a_y with
            | none => none
            | some t => if (pyStrip t).toList.isEmpty then none else some (pyStrip t)
          citations := citationsOf row.gsc_a_c } := by
  simp [extractPaper, h]

theorem citationsOf_nonneg (t : Option String) : 0 ≤ citationsOf t := by
  cases t with
  | none => exact Int.le_refl 0
  | some txt =>
      unfold citationsOf
      dsimp only
      by_cases hc : (!(pyStrip txt).toList.isEmpty && pyIsDigit (pyStrip txt)) = true
      · rw [if_pos hc]; exact Int.ofNat_nonneg _
      · rw [if_neg hc]

theorem citationsOf_not_digit (t : String) (h : pyIsDigit (pyStrip t) = false) :
    citationsOf (some t) = 0 := by
  simp [citationsOf, h]

theorem citationsOf_digit (t : String) (h : pyIsDigit (pyStrip t) = true) :
    citationsOf (some t) = Int.ofNat (pyInt (pyStrip t)) := by
  have h1 : (!(pyStrip t).toList.isEmpty) = true := by
    have h' := h
    unfold pyIsDigit at h'
    simp only [Bool.and_eq_true] at h'
    exact h'.1
  have hcond : (!(pyStrip t).toList.isEmpty && pyIsDigit (pyStrip t)) = true := by
    rw [h1, h]; rfl
  unfold citationsOf
  dsimp only
  rw [if_pos hcond]

theorem foldl_digits_chars (l : List Char) :
    ∀ n : Nat, l.foldl (fun a c => 10 * a + (c.toNat - 48)) n =
      Nat.ofDigits 10 ((l.map (fun c => c.toNat - 48)).reverse) + n * 10 ^ l.length := by
  induction l with
  | nil => intro n; simp [Nat.ofDigits]
  | cons c l ih =>
    intro n
    simp only [List.foldl_cons, List.map_cons, List.reverse_cons, List.length_cons, ih,
      Nat.ofDigits_append, Nat.ofDigits_cons, Nat.ofDigits_nil, List.length_reverse,
      List.length_map]
    ring

theorem pyInt_eq_ofDigits (s : String) :
    pyInt s = Nat.ofDigits 10 ((s.toList.map (fun c => c.toNat - 48)).reverse) := by
  unfold pyInt
  rw [foldl_digits_chars]
  simp

theorem enumFrom_ids (rows : List ProfileRow) :
    ∀ n, ((enumFrom n rows).filterMap (fun p => extractPaper p.1 p.2)).map
        (fun r => r.paper_id) =
      ((enumFrom n rows).filter (fun p => !p.2.raises)).map (fun p => p.1) := by
  induction rows with
  | nil => intro n; simp [enumFrom]
  | cons r rs ih =>
    intro n
    cases hr : r.raises with
    | true =>
        simp [enumFrom, List.filterMap_cons, extractPaper_raises n r hr, hr,
          List.filter_cons, ih]
    | false =>
        simp [enumFrom, List.filterMap_cons, extractPaper_eq n r hr, hr,
          List.filter_cons, ih]

/-! ### Claim theorems -/

/-- C1: for every run of the citation crawl, the emitted record sequence has
pairwise distinct `citer_title` strings (exact comparison against the
seen-set), contains no record with an empty title, and equals the
first-occurrence-wins deduplication of the records the extraction chain
builds from the processed rows in document order (so the record kept for a
repeated title is the one built from its first occurrence, later
occurrences being silently dropped). -/
theorem citers_title_dedup_run (citedByFound resultsFound : Bool) (script : List Attempt) :
    ((scrape_paper_citers citedByFound resultsFound script).map
        (fun r => r.citer_title)).Nodup ∧
    (∀ r, r ∈ scrape_paper_citers citedByFound resultsFound script → r.citer_title ≠ "") ∧
    (citedByFound = true → resultsFound = true →
      scrape_paper_citers citedByFound resultsFound script =
        (dedupFirstAux [] ((processedRows 0 script).filterMap (extractCiter []))).2) := by
  cases citedByFound with
  | false => simp [scrape_paper_citers]
  | true =>
    cases resultsFound with
    | false => simp [scrape_paper_citers]
    | true =>
      have hres : scrape_paper_citers true true script =
          (dedupFirstAux [] ((processedRows 0 script).filterMap (extractCiter []))).2 := by
        unfold scrape_paper_citers
        have h := (citersLoop_eq script citersInit).2
        simpa [citersInit] using h
      refine ⟨?_, ?_, fun _ _ => hres⟩
      · rw [hres]; exact (dedupFirstAux_nodup _ []).1
      · intro r hr
        rw [hres] at hr
        have hmem := dedupFirstAux_mem _ [] r hr
        rcases List.mem_filterMap.mp hmem with ⟨row, _, hrow⟩
        exact extractCiter_title_ne [] row r hrow

/-- Witness for C1 at a concrete one-page run emitting exactly `crec1`. -/
theorem citers_title_dedup_run_witness :
    (((scrape_paper_citers true true [Attempt.page [crow1] NextStatus.notFound]).map
        (fun r => r.citer_title)).Nodup) ∧
    crec1.citer_title ≠ "" ∧
    scrape_paper_citers true true [Attempt.page [crow1] NextStatus.notFound] =
      (dedupFirstAux []
        ((processedRows 0 [Attempt.page [crow1] NextStatus.notFound]).filterMap
          (extractCiter []))).2 := by
  have h := citers_title_dedup_run true true [Attempt.page [crow1] NextStatus.notFound]
  exact ⟨h.1, h.2.1 crec1 (by decide), h.2.2 rfl rfl⟩

/-- C2 counterexample: with a middle row whose extraction raises, the run
over three rows yields two records with ids `[1, 3]` — not `[1, 2]` as the
claim (`ids are exactly 1..N, N = number of successfully extracted rows,
failed rows do not consume an id`) requires. -/
theorem profile_id_gap_cex :
    (scrape_google_scholar_profile true [pOk, pBad, pOk]).map (fun r => r.paper_id) =
      [1, 3] ∧
    (scrape_google_scholar_profile true [pOk, pBad, pOk]).length = 2 ∧
    (scrape_google_scholar_profile true [pOk, pBad, pOk]).map (fun r => r.paper_id) ≠
      [1, 2] := by
  decide

/-- C2 (amended): `paper_id` is the 1-based document position of the
record's source row; a row whose extraction fails contributes no record
but still consumes its id, so the ids are exactly the positions of the
successfully extracted rows, in increasing order — and exactly `1..N`
only when every row extracts successfully. -/
theorem profile_ids_positions (rows : List ProfileRow) :
    (scrape_google_scholar_profile true rows).map (fun r => r.paper_id) =
      ((enumFrom 1 rows).filter (fun p => !p.2.raises)).map (fun p => p.1) := by
  unfold scrape_google_scholar_profile
  simpa using enumFrom_ids rows 1

/-- C3 counterexample: a profile row whose (single) title locator fails is
not skipped — the crawl emits a record for it, with `title` and `link`
absent, contradicting the claim that a row with no extractable title
contributes no record in both crawls. -/
theorem profile_row_without_title_emits :
    scrape_google_scholar_profile true [pOk] =
      [{ paper_id := 1, title := none, link := none, authors := none,
         publication := none, year := none, citations := 0 }] := by
  decide

/-- C3 (amended): in the citation crawl the chain tries the primary
`gs_rt` locator and then the secondary `h3 a` heading-anchor locator, and
a row in which both fail is skipped entirely; in the profile crawl only
the single `gsc_a_at` locator is tried and a row in which it fails still
contributes a record whose `title` and `link` are absent. -/
theorem title_chain_amended (seen : List String) (row : CiterRow) (i : Nat)
    (prow : ProfileRow) :
    (row.gsRt = none → row.h3a = none → extractCiter seen row = none) ∧
    (∀ e, row.gsRt = some e → titleElemOf row = some (e, row.gsRtAnchor)) ∧
    (∀ e, row.gsRt = none → row.h3a = some e → titleElemOf row = some (e, row.h3aAnchor)) ∧
    (prow.gsc_a_at = none → prow.raises = false →
      ∃ rec, extractPaper i prow = some rec ∧ rec.title = none ∧ rec.link = none) := by
  refine ⟨?_, ?_, ?_, ?_⟩
  · intro h1 h2
    unfold extractCiter titleElemOf
    rw [h1, h2]
  · intro e he
    unfold titleElemOf
    rw [he]
  · intro e h1 h2
    unfold titleElemOf
    rw [h1, h2]
  · intro h1 h2
    refine ⟨_, extractPaper_eq i prow h2, ?_, ?_⟩ <;> simp [h1]

/-- Witness for C3 (amended) at concrete rows exercising each branch. -/
theorem title_chain_amended_witness :
    extractCiter [] crowEmpty = none ∧
    titleElemOf crow1 = some ({ text := "Paper One", href := some "http://one" }, none) ∧
    titleElemOf crowH3 = some ({ text := "H3 Title", href := none }, none) ∧
    (∃ rec, extractPaper 1 pOk = some rec ∧ rec.title = none ∧ rec.link = none) := by
  refine ⟨(title_chain_amended [] crowEmpty 1 pOk).1 rfl rfl, ?_, ?_,
    (title_chain_amended [] crowEmpty 1 pOk).2.2.2 rfl rfl⟩
  · exact (title_chain_amended [] crow1 1 pOk).2.1 _ rfl
  · exact (title_chain_amended [] crowH3 1 pOk).2.2.1 _ rfl rfl

/-- C4: every extracted publication record carries a non-negative citation
count; a missing citation element or a citation text whose stripped form
is not all digits yields `0` (never an error — `citationsOf` is total);
and when the stripped text is a non-negative decimal numeral the count is
exactly its value (`Nat.ofDigits 10` of its digits). -/
theorem citation_count_spec (i : Nat) (row : ProfileRow) (rec : PaperRecord)
    (h : extractPaper i row = some rec) :
    0 ≤ rec.citations ∧
    (row.gsc_a_c = none → rec.citations = 0) ∧
    (∀ t, row.gsc_a_c = some t → pyIsDigit (pyStrip t) = false → rec.citations = 0) ∧
    (∀ t, row.gsc_a_c = some t → pyIsDigit (pyStrip t) = true →
      rec.citations =
        Int.ofNat (Nat.ofDigits 10
          (((pyStrip t).toList.map (fun c => c.toNat - 48)).reverse))) := by
  have hcit : rec.citations = citationsOf row.gsc_a_c := by
    cases hr : row.raises with
    | true => rw [extractPaper_raises i row hr] at h; exact absurd h (by simp)
    | false =>
        rw [extractPaper_eq i row hr] at h
        injection h with h'
        rw [← h']
  refine ⟨?_, ?_, ?_, ?_⟩
  · rw [hcit]; exact citationsOf_nonneg _
  · intro hn; rw [hcit, hn]; rfl
  · intro t ht hd; rw [hcit, ht]; exact citationsOf_not_digit t hd
  · intro t ht hd
    rw [hcit, ht, citationsOf_digit t hd, pyInt_eq_ofDigits]

/-- Witness for C4 at a row whose citation cell reads `" 123 "`. -/
theorem citation_count_spec_witness :
    0 ≤ cRecDigits.citations ∧
    cRecDigits.citations =
      Int.ofNat (Nat.ofDigits 10
        (((pyStrip " 123 ").toList.map (fun c => c.toNat - 48)).reverse)) := by
  have h := citation_count_spec 1 cRowDigits cRecDigits (by decide)
  exact ⟨h.1, h.2.2.2 " 123 " rfl (by decide)⟩

/-- C5: every record built from a row with a gray info line takes
`citer_authors` from segment 0 of the `' - '` split of the line,
`citer_publication` from segment 1, and `citer_year` from the year-pattern
search over segment 2 when a third segment exists; in particular the
two-segment line `"A. Author - Venue, 2019"` yields authors
`"A. Author"`, publication `"Venue, 2019"` and no year, while
`"A. Author - Venue - 2019"` yields year `"2019"`. -/
theorem info_line_split_spec (seen : List String) (row : CiterRow) (rec : CiterRecord)
    (s : String) (h : extractCiter seen row = some rec) (hs : row.gsA = some s) :
    rec.citer_authors = (pySplitInfo s).get? 0 ∧
    rec.citer_publication = (pySplitInfo s).get? 1 ∧
    rec.citer_year =
      (if 2 < (pySplitInfo s).length then ((pySplitInfo s).get? 2).bind yearSearch
       else none) ∧
    extractCiter [] crowInfo2 = some crecT1 ∧
    extractCiter [] crowInfo3 = some
      { citer_title := "T2", citer_link := none, citer_authors := some "A. Author",
        citer_publication := some "Venue", citer_year := some "2019" } := by
  obtain ⟨e, anch, ht, h1, h2, h3, h4, h5⟩ := extractCiter_fields seen row rec h
  refine ⟨?_, ?_, ?_, by decide, by decide⟩
  · rw [h3, hs]; rfl
  · rw [h4, hs]; rfl
  · rw [h5, hs]; rfl

/-- Witness for C5 at the two-segment synthetic info line of §8. -/
theorem info_line_split_spec_witness :
    crecT1.citer_authors = (pySplitInfo "A. Author - Venue, 2019").get? 0 ∧
    crecT1.citer_publication = (pySplitInfo "A. Author - Venue, 2019").get? 1 ∧
    crecT1.citer_year =
      (if 2 < (pySplitInfo "A. Author - Venue, 2019").length then
        ((pySplitInfo "A. Author - Venue, 2019").get? 2).bind yearSearch
       else none) := by
  have h := info_line_split_spec [] crowInfo2 crecT1 "A. Author - Venue, 2019"
    (by decide) rfl
  exact ⟨h.1, h.2.1, h.2.2.1⟩

/-- C6 counterexample: a crawl that advances once and then exhausts its
retries returns the two gathered records as the plain result list — the
very same value a clean run over that one page returns.  There is no
`Failed` outcome and no metadata packaging: the partial prefix IS the
returned result, contradicting the claim that it is discarded. -/
theorem failed_crawl_returns_prefix_cex :
    scrape_paper_citers true true
      [Attempt.page [crow1] NextStatus.ok, Attempt.pageError, Attempt.pageError,
       Attempt.pageError] = [crec1] ∧
    scrape_paper_citers true true [Attempt.page [crow1] NextStatus.notFound] = [crec1] := by
  decide

/-- C6 (amended): when the citation crawl stops because of errors (the
retry limit is exhausted) the records collected so far are kept and
handed back unchanged as the return value of `scrape_paper_citers`; no
`Failed` outcome exists, so the caller cannot distinguish the aborted
crawl from a successful one. -/
theorem failure_prefix_amended (st : CiterCrawlState) (rest : List Attempt)
    (h : maxRetries ≤ st.retryCount + 1) (script : List Attempt) :
    (citersLoop (Attempt.pageError :: rest) st).citers = st.citers ∧
    scrape_paper_citers true true script = (citersLoop script citersInit).citers := by
  refine ⟨?_, rfl⟩
  rw [citersLoop_error_stop st rest h]

/-- Witness for C6 (amended) at a state holding the prefix `[crec1]`. -/
theorem failure_prefix_amended_witness :
    (citersLoop [Attempt.pageError] st2).citers = st2.citers ∧
    scrape_paper_citers true true [] = (citersLoop [] citersInit).citers := by
  have h := failure_prefix_amended st2 [] (by decide) []
  exact ⟨h.1, h.2⟩

/-- C7 counterexample: three consecutive page errors abort the crawl
before a fourth attempt is made — the following page, which would have
yielded `crec2`, is never extracted, and the abort produces the plain
empty list, identical to the value of a run whose first page is empty;
no `Failed(MaxRetriesExceeded)` value is produced. -/
theorem retry_limit_cex :
    scrape_paper_citers true true
      [Attempt.pageError, Attempt.pageError, Attempt.pageError,
       Attempt.page [crow2] NextStatus.notFound] = [] ∧
    scrape_paper_citers true true [Attempt.page [crow2] NextStatus.notFound] = [crec2] ∧
    scrape_paper_citers true true [Attempt.page [] NextStatus.notFound] = [] := by
  decide

/-- C7 (amended): on a transient per-page error the loop re-attempts the
same current page (the page number is unchanged), with the fixed backoff
event preceding the re-attempt; after the third consecutive failed
attempt (`max_retries = 3` failures in total, i.e. two retries after the
first failure) the whole crawl stops, returning the state — and hence the
records collected so far — with no failure marker; and a successful page
advance resets the retry counter to zero. -/
theorem retry_behavior_amended (st : CiterCrawlState) (rest : List Attempt)
    (rows : List CiterRow) :
    (st.retryCount + 1 < maxRetries →
      citersLoop (Attempt.pageError :: rest) st =
        citersLoop rest
          { st with retryCount := st.retryCount + 1,
                    trace := st.trace ++ [CEvent.attempt st.pageNum, CEvent.backoff] }) ∧
    (maxRetries ≤ st.retryCount + 1 →
      citersLoop (Attempt.pageError :: rest) st =
        { st with retryCount := st.retryCount + 1,
                  trace := st.trace ++ [CEvent.attempt st.pageNum] }) ∧
    (rows.isEmpty = false →
      citersLoop (Attempt.page rows NextStatus.ok :: rest) st =
        citersLoop rest
          { pageNum := st.pageNum + 1
            retryCount := 0
            seen := (extractRowsLoop st.seen st.citers rows).1
            citers := (extractRowsLoop st.seen st.citers rows).2
            trace := st.trace ++ [CEvent.attempt st.pageNum,
              CEvent.advance (st.pageNum + 1)] }) :=
  ⟨citersLoop_error_retry st rest, citersLoop_error_stop st rest,
   citersLoop_page_ok st rest rows⟩

/-- Witness for C7 (amended) at concrete states exercising each branch. -/
theorem retry_behavior_amended_witness :
    citersLoop [Attempt.pageError] citersInit =
      citersLoop []
        { citersInit with
            retryCount := citersInit.retryCount + 1
            trace := citersInit.trace ++ [CEvent.attempt citersInit.pageNum,
              CEvent.backoff] } ∧
    citersLoop [Attempt.pageError] st2 =
      { st2 with retryCount := st2.retryCount + 1,
                 trace := st2.trace ++ [CEvent.attempt st2.pageNum] } ∧
    citersLoop [Attempt.page [crow2] NextStatus.ok] citersInit =
      citersLoop []
        { pageNum := citersInit.pageNum + 1
          retryCount := 0
          seen := (extractRowsLoop citersInit.seen citersInit.citers [crow2]).1
          citers := (extractRowsLoop citersInit.seen citersInit.citers [crow2]).2
          trace := citersInit.trace ++ [CEvent.attempt citersInit.pageNum,
            CEvent.advance (citersInit.pageNum + 1)] } := by
  have h := retry_behavior_amended citersInit [] [crow2]
  have h2 := retry_behavior_amended st2 [] [crow2]
  exact ⟨h.1 (by decide), h2.2.1 (by decide), h.2.2 (by decide)⟩

/-- C8 counterexample: when the publications container never appears the
profile crawl returns the empty record list — exactly the same value it
returns for a profile whose table is present but holds zero rows.  The
two outcomes are therefore not distinguishable, and no
`Failed(PublicationsTableNotFound)` value exists. -/
theorem table_missing_cex :
    scrape_google_scholar_profile false [pOk] = [] ∧
    scrape_google_scholar_profile true [] = [] ∧
    scrape_google_scholar_profile false [pOk] = scrape_google_scholar_profile true [] := by
  decide

/-- C8 (amended): when the container holding publication rows never
appears, the profile crawl returns (after its bounded 10-second wait, so
it does not hang) the empty record sequence — a value identical to the
zero-publication outcome rather than a distinguishable failure. -/
theorem table_missing_amended (rows : List ProfileRow) :
    scrape_google_scholar_profile false rows = [] ∧
    scrape_google_scholar_profile true [] = [] :=
  ⟨rfl, rfl⟩

/-- C9 counterexample: on a hard-blocked page the checkpoint sequence is
gate check, notification, blocking await-resume, and then directly result
detection — no second gate check occurs after the resume signal, so the
page is never re-validated as clear before extraction continues,
contradicting the claim. -/
theorem gate_no_recheck_cex :
    gateCheck "captcha" = GateState.HardBlock ∧
    citersBlockPhase "captcha" =
      [GAction.checkGate, GAction.notify, GAction.awaitResume, GAction.detectResults] ∧
    GAction.checkGate ∉ (citersBlockPhase "captcha").drop 3 := by
  decide

/-- C9 (amended): whenever the gate reports `SoftBlock` or `HardBlock`
the citation crawl surfaces a notification and blocks on the manual
checkpoint before any result detection or extraction happens — but after
the resume signal it proceeds directly to result detection without
re-running the gate check. -/
theorem gate_block_amended (src : String) (h : gateCheck src ≠ GateState.Clear) :
    citersBlockPhase src =
      [GAction.checkGate, GAction.notify, GAction.awaitResume, GAction.detectResults] := by
  unfold citersBlockPhase
  cases hg : gateCheck src with
  | Clear => exact absurd hg h
  | SoftBlock => rfl
  | HardBlock => rfl

/-- Witness for C9 (amended) at a soft-blocked page source. -/
theorem gate_block_amended_witness :
    citersBlockPhase "unusual traffic detected" =
      [GAction.checkGate, GAction.notify, GAction.awaitResume, GAction.detectResults] :=
  gate_block_amended "unusual traffic detected" (by decide)

/-- C10: every record the citation crawl emits carries all five fields by
construction of `CiterRecord`; its `citer_title` is never the empty
string, and when the gray info line is absent the three fields
`citer_authors`, `citer_publication`, `citer_year` are all `None`
together. -/
theorem citer_record_shape (seen : List String) (row : CiterRow) (rec : CiterRecord)
    (h : extractCiter seen row = some rec) :
    rec.citer_title ≠ "" ∧
    (row.gsA = none →
      rec.citer_authors = none ∧ rec.citer_publication = none ∧ rec.citer_year = none) := by
  refine ⟨extractCiter_title_ne seen row rec h, ?_⟩
  intro hga
  obtain ⟨e, anch, ht, h1, h2, h3, h4, h5⟩ := extractCiter_fields seen row rec h
  rw [h3, h4, h5, hga]
  exact ⟨rfl, rfl, rfl⟩

/-- Witness for C10 at the concrete row `crow1` (no info line). -/
theorem citer_record_shape_witness :
    crec1.citer_title ≠ "" ∧
    (crec1.citer_authors = none ∧ crec1.citer_publication = none ∧
      crec1.citer_year = none) := by
  have h := citer_record_shape [] crow1 crec1 (by decide)
  exact ⟨h.1, h.2 rfl⟩

end Scholar
